import Mathlib

/-!
Shallow embedding of `src/kaqt_app/app.js` (the KAQT dashboard front-end):
the currency formatters, the equity-curve renderer `drawEquityCurve`, the
table renderers `renderPositions` / `renderTrades`, the refresh orchestrator
`refreshAll`, and the command handlers (`startEngine`, `stopEngine`, the
save-connection and save-schedule click handlers).

JavaScript numbers are modelled as `Option ℚ` (`none` = NaN); JavaScript
values reaching these functions as `JSVal`.  DOM/canvas side effects are
modelled as explicit event/op traces so that "what the function draws /
renders / calls" is a value the theorems can inspect.
-/

namespace Kaqt

/-- A JavaScript value as it can reach the dashboard code from the backend
payloads or form fields: `undefined`, `null`, a (finite) number, `NaN`,
a string, or a boolean.  (Infinities never arise in the modelled code
paths and are not represented.) -/
inductive JSVal where
  | undef
  | null
  | num (q : ℚ)
  | nan
  | str (s : String)
  | bool (b : Bool)
  deriving DecidableEq, Repr

/-- A JavaScript number: `none` models NaN, `some q` a finite number. -/
abbrev JSNum := Option ℚ

/-- JavaScript falsiness: `undefined`, `null`, `0`, `NaN`, `""`, `false`. -/
def jsFalsy : JSVal → Bool
  | .undef => true
  | .null => true
  | .num q => q = 0
  | .nan => true
  | .str s => s = ""
  | .bool b => !b

/-- JavaScript truthiness. -/
def jsTruthy (v : JSVal) : Bool := !jsFalsy v

/-- Whether a value is nullish (`null` or `undefined`), as tested by `??`
and by loose `!= null`. -/
def jsNullish : JSVal → Bool
  | .undef => true
  | .null => true
  | _ => false

/-- The JavaScript `a || b` operator. -/
def jsOr (a b : JSVal) : JSVal := if jsFalsy a then b else a

/-- The JavaScript `a ?? b` (nullish-coalescing) operator. -/
def jsCoalesce (a b : JSVal) : JSVal := if jsNullish a then b else a

/-- Digit value of a character, if it is a decimal digit. -/
def charDigit (c : Char) : Option ℕ :=
  if c.isDigit then some (c.toNat - 48) else none

/-- Value of a nonempty all-digit character list, `none` otherwise. -/
def digitsVal (cs : List Char) : Option ℕ :=
  if cs.isEmpty then none
  else cs.foldl (fun acc c =>
    match acc, charDigit c with
    | some a, some d => some (a * 10 + d)
    | _, _ => none) (some 0)

/-- Unsigned decimal literal `digits[.digits]` (at least one digit on one
side of the dot), as accepted by JavaScript `Number(string)`. -/
def parseUnsigned (cs : List Char) : Option ℚ :=
  let ip := cs.takeWhile (fun c => c ≠ '.')
  let rest := cs.dropWhile (fun c => c ≠ '.')
  match rest with
  | [] => (digitsVal ip).map (fun n => (n : ℚ))
  | _ :: frac =>
    if frac.isEmpty then (digitsVal ip).map (fun n => (n : ℚ))
    else
      match digitsVal frac with
      | none => none
      | some f =>
        let fq : ℚ := (f : ℚ) / ((10 : ℚ) ^ frac.length)
        if ip.isEmpty then some fq
        else (digitsVal ip).map (fun n => (n : ℚ) + fq)

/-- The decimal fragment of JavaScript `Number(string)`: surrounding
whitespace is ignored, the empty string is `0`, an optional sign precedes
a decimal literal, anything else is NaN.  (Hex/exponent/`Infinity` forms
never arise in the modelled code paths.) -/
def parseDec (s : String) : JSNum :=
  let cs := ((s.toList.dropWhile Char.isWhitespace).reverse.dropWhile
    Char.isWhitespace).reverse
  match cs with
  | [] => some 0
  | '+' :: rest => parseUnsigned rest
  | '-' :: rest => (parseUnsigned rest).map Neg.neg
  | _ => parseUnsigned cs

/-- JavaScript `Number(v)` coercion. -/
def jsToNum : JSVal → JSNum
  | .undef => none
  | .null => some 0
  | .num q => some q
  | .nan => none
  | .str s => parseDec s
  | .bool b => some (if b then 1 else 0)

/-- Addition on JavaScript numbers (NaN-propagating). -/
def jnAdd : JSNum → JSNum → JSNum
  | some a, some b => some (a + b)
  | _, _ => none

/-- Subtraction on JavaScript numbers (NaN-propagating). -/
def jnSub : JSNum → JSNum → JSNum
  | some a, some b => some (a - b)
  | _, _ => none

/-- Multiplication on JavaScript numbers (NaN-propagating). -/
def jnMul : JSNum → JSNum → JSNum
  | some a, some b => some (a * b)
  | _, _ => none

/-- Division on JavaScript numbers (NaN-propagating).  A zero divisor is
mapped to NaN; at every division site in the modelled code the divisor is
guarded away from the real number `0`, so JavaScript's infinity semantics
for `x / 0` are never exercised. -/
def jnDiv : JSNum → JSNum → JSNum
  | some a, some b => if b = 0 then none else some (a / b)
  | _, _ => none

/-- `Math.min` on two JavaScript numbers (NaN-propagating). -/
def jnMin : JSNum → JSNum → JSNum
  | some a, some b => some (min a b)
  | _, _ => none

/-- `Math.max` on two JavaScript numbers (NaN-propagating). -/
def jnMax : JSNum → JSNum → JSNum
  | some a, some b => some (max a b)
  | _, _ => none

/-- `Math.abs` on a JavaScript number. -/
def jnAbs : JSNum → JSNum
  | some a => some |a|
  | none => none

/-- Strict equality `===` on JavaScript numbers: `NaN === NaN` is false. -/
def jnSEq : JSNum → JSNum → Bool
  | some a, some b => a = b
  | _, _ => false

/-- `<` on JavaScript numbers: any comparison with NaN is false. -/
def jnLt : JSNum → JSNum → Bool
  | some a, some b => a < b
  | _, _ => false

/-- Truthiness of a JavaScript number: `0` and NaN are falsy. -/
def jnTruthy : JSNum → Bool
  | some a => a ≠ 0
  | none => false

/-- `Math.min(...ys)` over a spread list; the empty case never arises in
the modelled code (it is guarded by `points.length < 2`). -/
def jnListMin : List JSNum → JSNum
  | [] => none
  | y :: ys => ys.foldl jnMin y

/-- `Math.max(...ys)` over a spread list. -/
def jnListMax : List JSNum → JSNum
  | [] => none
  | y :: ys => ys.foldl jnMax y

/-! ## Formatter (`fmtUSD`, `fmtUSD2`, lines 8–15) -/

/-- Left-pad a digit string with zeros to width `w`. -/
def padZeros (s : String) (w : ℕ) : String :=
  String.mk (List.replicate (w - s.length) '0') ++ s

/-- Fixed-point decimal rendering of a nonnegative rational with `d`
fraction digits (rounding to nearest). -/
def ratToFixed (q : ℚ) (d : ℕ) : String :=
  let m : ℕ := (round (q * (10 : ℚ) ^ d)).toNat
  let ip := m / 10 ^ d
  let fp := m % 10 ^ d
  toString ip ++ (if d = 0 then "" else "." ++ padZeros (toString fp) d)

/-- Model of `n.toLocaleString(undefined, {style:'currency', currency:'USD',
maximumFractionDigits:d})`: a dollar sign followed by the fixed-point
rendering (NaN renders as `$NaN`; locale digit-grouping separators are
abstracted away). -/
def usdFormat (d : ℕ) : JSNum → String
  | none => "$NaN"
  | some q => (if q < 0 then "-$" else "$") ++ ratToFixed |q| d

/-- `fmtUSD(x)` (app.js lines 8–11): `Number(x || 0)` rendered as USD with
0 fraction digits. -/
def fmtUSD (x : JSVal) : String :=
  usdFormat 0 (jsToNum (jsOr x (.num 0)))

/-- `fmtUSD2(x)` (app.js lines 12–15): `Number(x || 0)` rendered as USD
with 2 fraction digits. -/
def fmtUSD2 (x : JSVal) : String :=
  usdFormat 2 (jsToNum (jsOr x (.num 0)))

/-! ## Equity chart (`drawEquityCurve`, lines 68–138) -/

/-- One element of the `points` argument: an object whose `equity` field
may hold any JavaScript value (`.undef` models an absent field). -/
structure EquityPoint where
  equity : JSVal
  deriving DecidableEq, Repr

/-- The logical (CSS-pixel) bounding rectangle of the canvas, as returned
by `getBoundingClientRect()`. -/
structure Rect where
  width : ℚ
  height : ℚ
  deriving DecidableEq, Repr

/-- A canvas operation issued by `drawEquityCurve`, with coordinates as
JavaScript numbers (so a NaN coordinate is observable as `none`). -/
inductive CanvasOp where
  | setSize (w h : ℤ)
  | setTransform (dpr : ℚ)
  | clearRect (x y w h : ℚ)
  | fillText (s : String) (x y : ℚ)
  | beginPath
  | moveTo (x y : JSNum)
  | lineTo (x y : JSNum)
  | stroke
  | closePath
  | fill
  deriving DecidableEq, Repr

/-- The placeholder message drawn when there are fewer than 2 points. -/
def noDataMsg : String :=
  "Equity curve will appear here once KAQT records daily snapshots."

/-- `Number(p.equity || 0)` (line 94): the y-value a point contributes. -/
def coerceEquity (p : EquityPoint) : JSNum :=
  jsToNum (jsOr p.equity (.num 0))

/-- Lines 95–97: `minY = Math.min(...ys); maxY = Math.max(...ys);
if (minY === maxY) { maxY = minY + 1; }`. -/
def equityRange (ys : List JSNum) : JSNum × JSNum :=
  let minY := jnListMin ys
  let maxY := jnListMax ys
  (minY, if jnSEq minY maxY then jnAdd minY (some 1) else maxY)

/-- The horizontal mapping `xAt` (lines 104–106):
`pad + (i / (n - 1)) * innerW` with `n` the number of points. -/
def xAt (pad innerW : ℚ) (n i : ℕ) : ℚ :=
  pad + ((i : ℚ) / ((n : ℚ) - 1)) * innerW

/-- The vertical mapping `yAt` (lines 107–110):
`t = (val - minY) / (maxY - minY); pad + (1 - t) * innerH`. -/
def yAt (pad innerH : ℚ) (minY maxY val : JSNum) : JSNum :=
  let t := jnDiv (jnSub val minY) (jnSub maxY minY)
  jnAdd (some pad) (jnMul (jnSub (some 1) t) (some innerH))

/-- The chart point `(xAt i, yAt ys[i])` for every index of `ys` — the
vertices the line phase (lines 127–130) moves/draws through, in order.
`ys` is `points.map(p => Number(p.equity || 0))`, so `ys.length` equals
`points.length`. -/
def curvePoints (w h : ℚ) (ys : List JSNum) : List (JSNum × JSNum) :=
  let (minY, maxY) := equityRange ys
  let pad : ℚ := 14
  let innerW := w - pad * 2
  let innerH := h - pad * 2
  ys.enum.map (fun iy =>
    (some (xAt pad innerW ys.length iy.1), yAt pad innerH minY maxY iy.2))

/-- Lines 112–121: five evenly spaced horizontal gridlines. -/
def gridOps (w h : ℚ) : List CanvasOp :=
  let pad : ℚ := 14
  let innerW := w - pad * 2
  let innerH := h - pad * 2
  ((List.range 5).map (fun i =>
    let yy := pad + ((i : ℚ) / 4) * innerH
    [CanvasOp.beginPath, .moveTo (some pad) (some yy),
      .lineTo (some (pad + innerW)) (some yy), .stroke])).flatten

/-- Lines 94–137 with `ys = points.map(p => Number(p.equity || 0))`
already extracted: gridlines, the connected line through `curvePoints`,
then the area fill dropping to the baseline `pad + innerH` under the last
and first points. -/
def drawEquityData (w h : ℚ) (ys : List JSNum) : List CanvasOp :=
  let pad : ℚ := 14
  let innerW := w - pad * 2
  let innerH := h - pad * 2
  let cps := curvePoints w h ys
  let lineOps :=
    match cps with
    | [] => [CanvasOp.beginPath, .stroke]
    | c :: rest =>
      [CanvasOp.beginPath, .moveTo c.1 c.2] ++
        rest.map (fun p => CanvasOp.lineTo p.1 p.2) ++ [.stroke]
  let fillOps :=
    [CanvasOp.lineTo (some (xAt pad innerW ys.length (ys.length - 1)))
        (some (pad + innerH)),
      .lineTo (some (xAt pad innerW ys.length 0)) (some (pad + innerH)),
      .closePath, .fill]
  gridOps w h ++ lineOps ++ fillOps

/-- `drawEquityCurve(points)` (lines 68–138).  `hasCanvas` models the
`!canvas || !ctx` guard; `rect` the fresh `getBoundingClientRect()`; `dpr`
the (already `|| 1`-defaulted) device pixel ratio; `points = none` models
an absent/null argument.  The result is the ordered trace of canvas
operations. -/
def drawEquityCurve (hasCanvas : Bool) (rect : Rect) (dpr : ℚ)
    (points : Option (List EquityPoint)) : List CanvasOp :=
  if !hasCanvas then []
  else
    let w := rect.width
    let h := rect.height
    let pre : List CanvasOp :=
      [.setSize ⌊w * dpr⌋ ⌊h * dpr⌋, .setTransform dpr, .clearRect 0 0 w h]
    match points with
    | none => pre ++ [.fillText noDataMsg 14 32]
    | some pts =>
      if pts.length < 2 then pre ++ [.fillText noDataMsg 14 32]
      else pre ++ drawEquityData w h (pts.map coerceEquity)

/-! ## Table renderers (`renderPositions` lines 146–170,
`renderTrades` lines 172–196) -/

/-- The display content of one rendered cell / text node.  Each
constructor records which rendering path produced it, so that "rendered as
the em-dash" versus "rendered as a number" is observable. -/
inductive Cell where
  | dash
  | text (s : String)
  | jsval (v : JSVal)
  | jnum (v : JSNum)
  | toFixed2 (v : JSNum)
  | dollarFixed2 (v : JSNum)
  | strOf (v : JSVal)
  | pctGlyph (q : ℚ)
  | pctFixed2 (v : JSNum)
  deriving DecidableEq, Repr

/-- Whether a cell renders as the em-dash "—": either the truthiness
fallback `.dash`, or a `${...}` interpolation whose value is the literal
string "—" (the `??`-chain fallback in `renderTrades`). -/
def Cell.isDash : Cell → Bool
  | .dash => true
  | .jsval (.str s) => s = "—"
  | .text s => s = "—"
  | _ => false

/-- One element of the positions list: the object fields `renderPositions`
reads (`.undef` models an absent field). -/
structure Position where
  symbol : JSVal := .undef
  quantity : JSVal := .undef
  size : JSVal := .undef
  avg_price : JSVal := .undef
  avgPrice : JSVal := .undef
  avgCost : JSVal := .undef
  deriving DecidableEq, Repr

/-- `Number(p.quantity ?? p.size ?? 0)` (line 158). -/
def posQty (p : Position) : JSNum :=
  jsToNum (jsCoalesce p.quantity (jsCoalesce p.size (.num 0)))

/-- `qty > 0 ? "LONG" : qty < 0 ? "SHORT" : "FLAT"` (line 159). -/
def sideOf (qty : JSNum) : String :=
  if jnLt (some 0) qty then "LONG" else if jnLt qty (some 0) then "SHORT"
  else "FLAT"

/-- `Number(p.avg_price ?? p.avgPrice ?? p.avgCost ?? 0)` (line 160). -/
def posAvg (p : Position) : JSNum :=
  jsToNum (jsCoalesce p.avg_price (jsCoalesce p.avgPrice
    (jsCoalesce p.avgCost (.num 0))))

/-- One rendered position table row (lines 162–167). -/
structure PosRow where
  symbol : Cell
  side : String
  qtyMag : Cell
  avg : Cell
  deriving DecidableEq, Repr

/-- The row `renderPositions` builds for one position (lines 157–168). -/
def mkPosRow (p : Position) : PosRow :=
  let qty := posQty p
  let avg := posAvg p
  { symbol := .jsval (jsOr p.symbol (.str "?"))
    side := sideOf qty
    qtyMag := .jnum (jnAbs qty)
    avg := if jnTruthy avg then .toFixed2 avg else .dash }

/-- What `renderPositions` leaves in the table body: the single
"No open positions." placeholder row, or one row per position. -/
inductive PositionsOut where
  | placeholder
  | rows (rs : List PosRow)
  deriving DecidableEq, Repr

/-- `renderPositions(list)` (lines 146–170).  `hasBody` models the
`!positionsBody` guard (`none` = no surface touched); `list = none`
models an absent/null argument. -/
def renderPositions (hasBody : Bool) (list : Option (List Position)) :
    Option PositionsOut :=
  if !hasBody then none
  else
    match list with
    | none => some .placeholder
    | some l =>
      if l.length = 0 then some .placeholder
      else some (.rows (l.map mkPosRow))

/-- One element of the trades list: the object fields `renderTrades`
reads. -/
structure Trade where
  timestamp : JSVal := .undef
  symbol : JSVal := .undef
  side : JSVal := .undef
  quantity : JSVal := .undef
  qty : JSVal := .undef
  price : JSVal := .undef
  deriving DecidableEq, Repr

/-- One rendered trade table row (lines 186–193).  `ts` is the epoch
value `Number(t.timestamp || (Date.now() / 1000))` fed to `new Date`. -/
structure TradeRow where
  ts : JSNum
  symbol : Cell
  side : Cell
  qty : Cell
  price : Cell
  deriving DecidableEq, Repr

/-- The row `renderTrades` builds for one trade (lines 183–193); `now`
is `Date.now() / 1000`. -/
def mkTradeRow (now : ℚ) (t : Trade) : TradeRow :=
  { ts := jsToNum (jsOr t.timestamp (.num now))
    symbol := .jsval (jsOr t.symbol (.str "?"))
    side := .jsval (jsOr t.side (.str "?"))
    qty := .jsval (jsCoalesce t.quantity (jsCoalesce t.qty (.str "—")))
    price := if jsTruthy t.price then .toFixed2 (jsToNum t.price)
      else .dash }

/-- JavaScript `list.slice(-50)`: the last 50 elements (the whole list
when it has at most 50). -/
def sliceLast50 (l : List α) : List α := l.drop (l.length - 50)

/-- What `renderTrades` leaves in the table body. -/
inductive TradesOut where
  | placeholder
  | rows (rs : List TradeRow)
  deriving DecidableEq, Repr

/-- The rows of a nonempty trade list:
`list.slice(-50).reverse().forEach(...)` (line 183). -/
def tradeRows (now : ℚ) (l : List Trade) : List TradeRow :=
  ((sliceLast50 l).reverse).map (mkTradeRow now)

/-- `renderTrades(list)` (lines 172–196). -/
def renderTrades (hasBody : Bool) (now : ℚ) (list : Option (List Trade)) :
    Option TradesOut :=
  if !hasBody then none
  else
    match list with
    | none => some .placeholder
    | some l =>
      if l.length = 0 then some .placeholder
      else some (.rows (tradeRows now l))

/-! ## Refresh orchestrator (`refreshAll`, lines 201–260) and command
handlers (lines 265–311) -/

/-- The status payload returned by `get_status()`: the fields `refreshAll`
reads (`.undef` models an absent field). -/
structure Status where
  cash : JSVal := .undef
  account_balance : JSVal := .undef
  equity_pct : JSVal := .undef
  last_decision_human : JSVal := .undef
  engine_active : JSVal := .undef
  connection_status : JSVal := .undef
  signal_state : JSVal := .undef
  next_run_human : JSVal := .undef
  current_symbol : JSVal := .undef
  current_size : JSVal := .undef
  current_avg_price : JSVal := .undef
  live_return : JSVal := .undef
  live_max_dd : JSVal := .undef
  deriving DecidableEq, Repr

/-- Line 210–211: `pct = Number(s.equity_pct ?? 0)`, shown as
`▲/▼ (pct*100).toFixed(2)%` only when finite and non-zero, "—"
otherwise. -/
def pctCell (v : JSVal) : Cell :=
  match jsToNum (jsCoalesce v (.num 0)) with
  | some q => if q ≠ 0 then .pctGlyph q else .dash
  | none => .dash

/-- Line 241: `s.current_size != null ? String(s.current_size) : "—"`. -/
def posSizeCell (v : JSVal) : Cell :=
  if jsNullish v then .dash else .strOf v

/-- Line 242: `s.current_avg_price ?
`$${Number(s.current_avg_price).toFixed(2)}` : "—"`. -/
def posAvgCell (v : JSVal) : Cell :=
  if jsTruthy v then .dollarFixed2 (jsToNum v) else .dash

/-- Lines 247–248: `(v != null) ? `${(Number(v)*100).toFixed(2)}%` : "—"`
(the mini return / max-drawdown stats). -/
def miniPctCell (v : JSVal) : Cell :=
  if jsNullish v then .dash else .pctFixed2 (jnMul (jsToNum v) (some 100))

/-- Strict equality `===` between a JavaScript value and a string. -/
def jsIsStr (v : JSVal) (s : String) : Bool :=
  match v with
  | .str t => t = s
  | _ => false

/-- An observable effect of `refreshAll` or a command handler: a backend
bridge call, a DOM text/class/disabled write, a table render, a chart
draw, an `alert`, or a triggered `refreshAll()`. -/
inductive Event where
  | call (api : String)
  | setText (id : String) (c : Cell)
  | dot (id : String) (green : Bool)
  | setDisabled (id : String) (b : Bool)
  | positionsTable (o : Option PositionsOut)
  | tradesTable (o : Option TradesOut)
  | chart (ops : List CanvasOp)
  | alertEv (m : JSVal)
  | refreshEv
  deriving DecidableEq, Repr

/-- The DOM writes of lines 207–249, in source order, for status `s`. -/
def statusWrites (s : Status) : List Event :=
  let active := jsTruthy s.engine_active
  let engineTxt : Cell := .text (if active then "ACTIVE" else "INACTIVE")
  let lastDec : Cell := .jsval (jsOr s.last_decision_human (.str "—"))
  let signal : Cell := .jsval (jsOr s.signal_state (.str "—"))
  let nextRun : Cell := .jsval (jsOr s.next_run_human (.str "—"))
  [ .setText "top-cash" (.text (fmtUSD (jsOr s.cash (.num 0)))),
    .setText "top-equity" (.text (fmtUSD (jsOr s.account_balance (.num 0)))),
    .setText "top-equity-pct" (pctCell s.equity_pct),
    .setText "top-last-decision" lastDec,
    .setText "top-engine" engineTxt,
    .dot "engine-dot" active,
    .setText "conn-status" (.jsval (jsOr s.connection_status (.str "—"))),
    .setText "snap-cash" (.text (fmtUSD2 (jsOr s.cash (.num 0)))),
    .setText "snap-equity"
      (.text (fmtUSD2 (jsOr s.account_balance (.num 0)))),
    .setText "snap-signal" signal,
    .setText "snap-last" lastDec,
    .setText "engine-status-text" engineTxt,
    .dot "engine-dot-2" active,
    .setText "engine-next-run" nextRun,
    .setText "engine-signal" signal,
    .setText "engine-status-2" engineTxt,
    .setText "engine-signal-2" signal,
    .setText "engine-last-2" lastDec,
    .setText "engine-next-2" nextRun,
    .setDisabled "btn-start" active,
    .setDisabled "btn-start-2" active,
    .setText "pos-symbol" (.jsval (jsOr s.current_symbol (.str "—"))),
    .setText "pos-size" (posSizeCell s.current_size),
    .setText "pos-avg" (posAvgCell s.current_avg_price),
    .setText "pos-exposure"
      (.text (if jsIsStr s.signal_state "LONG" then "LONG (100%)"
        else "FLAT (0%)")),
    .setText "pos-cash" (.text (fmtUSD2 (jsOr s.cash (.num 0)))),
    .setText "mini-return" (miniPctCell s.live_return),
    .setText "mini-mdd" (miniPctCell s.live_max_dd),
    .setText "mini-exposure" signal ]

/-- `refreshAll()` (lines 201–260).  `ready` models `backendReady()`; the
backend's responses to the four queries are passed in; `hasPosBody`,
`hasTradesBody`, `hasCanvas`, `rect`, `dpr`, `now` model the DOM
environment.  Returns the ordered trace of backend calls and surface
writes; when the bridge is absent the trace is empty (line 202). -/
def refreshAll (ready : Bool) (s : Status) (pos : Option (List Position))
    (trd : Option (List Trade)) (curve : Option (List EquityPoint))
    (hasPosBody hasTradesBody hasCanvas : Bool) (rect : Rect) (dpr : ℚ)
    (now : ℚ) : List Event :=
  if !ready then []
  else
    [Event.call "get_status"] ++ statusWrites s ++
    [Event.call "get_positions", Event.call "get_trades",
      Event.positionsTable (renderPositions hasPosBody pos),
      Event.tradesTable (renderTrades hasTradesBody now trd),
      Event.call "get_equity_curve",
      Event.chart (drawEquityCurve hasCanvas rect dpr curve)]

/-- A `{ok, message}` command response from the backend. -/
structure ApiResult where
  ok : JSVal := .undef
  message : JSVal := .undef
  deriving DecidableEq, Repr

/-- `startEngine()` (lines 265–270): ready-guard, one `start_engine`
call, alert of `r.message || (r.ok ? "Engine started" : "Failed")`, then
`refreshAll()`. -/
def startEngine (ready : Bool) (r : ApiResult) : List Event :=
  if !ready then [.alertEv (.str "Backend not ready.")]
  else
    [.call "start_engine",
      .alertEv (jsOr r.message
        (if jsTruthy r.ok then .str "Engine started" else .str "Failed")),
      .refreshEv]

/-- `stopEngine()` (lines 272–277). -/
def stopEngine (ready : Bool) (r : ApiResult) : List Event :=
  if !ready then [.alertEv (.str "Backend not ready.")]
  else
    [.call "stop_engine",
      .alertEv (jsOr r.message
        (if jsTruthy r.ok then .str "Engine stopped" else .str "Failed")),
      .refreshEv]

/-- The broker-config payload built from the connection form fields
(lines 286–293). -/
structure ConnPayload where
  broker : String
  mode : JSVal
  account_id : JSVal
  ibkr_host : JSVal
  ibkr_port : JSNum
  ibkr_client_id : JSNum
  deriving DecidableEq, Repr

/-- The `btn-save-conn` click handler (lines 285–296): builds the payload,
one `save_broker_config` call, alert of `r.message || "Saved"` — and no
`refreshAll()` call. -/
def saveConnClick (mode account host port clientId : JSVal)
    (r : ApiResult) : List Event :=
  let _payload : ConnPayload :=
    { broker := "ibkr", mode := mode, account_id := account,
      ibkr_host := host, ibkr_port := jsToNum (jsOr port (.num 0)),
      ibkr_client_id := jsToNum (jsOr clientId (.num 0)) }
  [.call "save_broker_config", .alertEv (jsOr r.message (.str "Saved"))]

/-- The `btn-save-sched` click handler (lines 305–311): one
`set_scheduler_time` call, alert of `r.message || "Saved"`, then
`refreshAll()`. -/
def saveSchedClick (hour minute : JSVal) (r : ApiResult) : List Event :=
  let _h := jsToNum (jsOr hour (.num 0))
  let _m := jsToNum (jsOr minute (.num 0))
  [.call "set_scheduler_time", .alertEv (jsOr r.message (.str "Saved")),
    .refreshEv]

/-- Number of backend calls in an event trace. -/
def countCalls (evs : List Event) : ℕ :=
  (evs.filter (fun e => match e with | .call _ => true | _ => false)).length

/-! ## Theorems -/

/-- Claim C6 (confirmed): when the backend bridge is absent
(`backendReady()` fails), `refreshAll()` returns at line 202 having
performed zero backend calls and zero surface writes — its event trace is
empty — and, being total, it does not throw. -/
theorem C6_refreshAll_no_bridge_noop :
    ∀ (s : Status) (pos : Option (List Position))
      (trd : Option (List Trade)) (curve : Option (List EquityPoint))
      (hp ht hc : Bool) (rect : Rect) (dpr now : ℚ),
      refreshAll false s pos trd curve hp ht hc rect dpr now = [] ∧
      countCalls (refreshAll false s pos trd curve hp ht hc rect dpr now)
        = 0 := by
  intros; exact ⟨rfl, rfl⟩

/-- Claim C4 (counterexample): the truthy non-numeric string "abc" is
coerced by `Number("abc" || 0)` to NaN, so `fmtUSD` renders "$NaN",
which is not the formatted form of zero ("$0"). -/
theorem C4_counterexample :
    fmtUSD (.str "abc") = "$NaN" ∧ fmtUSD (.num 0) = "$0" ∧
    fmtUSD (.str "abc") ≠ fmtUSD (.num 0) := by
  have h1 : fmtUSD (.str "abc") = "$NaN" := by
    simp [fmtUSD, jsOr, jsFalsy, jsToNum, parseDec, parseUnsigned,
      digitsVal, charDigit, usdFormat]
  have h2 : fmtUSD (.num 0) = "$0" := by
    simp [fmtUSD, jsOr, jsFalsy, jsToNum, usdFormat, ratToFixed, padZeros]
    rfl
  exact ⟨h1, h2, by rw [h1, h2]; decide⟩

/-- Claim C4 (corrected): the formatters are total (never throw).  Every
absent or falsy input (`undefined`, `null`, `0`, NaN, `""`, `false`)
formats as the formatted form of zero; but a truthy input that does not
parse as a number is coerced to NaN and formats as "$NaN", not as zero. -/
theorem C4_fmt_coercion :
    (∀ x : JSVal, jsFalsy x = true →
      fmtUSD x = fmtUSD (.num 0) ∧ fmtUSD2 x = fmtUSD2 (.num 0)) ∧
    (∀ s : String, jsFalsy (.str s) = false → parseDec s = none →
      fmtUSD (.str s) = "$NaN" ∧ fmtUSD2 (.str s) = "$NaN") := by
  constructor
  · intro x hx
    have h : jsOr x (.num 0) = .num 0 := by simp [jsOr, hx]
    have h0 : jsOr (.num 0) (.num 0) = .num 0 := by simp [jsOr]
    constructor <;> · simp only [fmtUSD, fmtUSD2]; rw [h, h0]
  · intro s hs hp
    have h : jsOr (.str s) (.num 0) = .str s := by simp [jsOr, hs]
    constructor <;> simp [fmtUSD, fmtUSD2, h, jsToNum, hp, usdFormat]

/-- Witness for `C4_fmt_coercion`: the absent input `undefined` formats
as zero, and the concrete non-numeric string "abc" formats as "$NaN". -/
theorem C4_fmt_coercion_witness :
    jsFalsy JSVal.undef = true ∧ fmtUSD .undef = fmtUSD (.num 0) ∧
    jsFalsy (.str "abc") = false ∧ parseDec "abc" = none ∧
    fmtUSD (.str "abc") = "$NaN" := by
  have h1 : jsFalsy JSVal.undef = true := rfl
  have h2 : jsFalsy (.str "abc") = false := by decide
  have h3 : parseDec "abc" = none := by
    simp [parseDec, parseUnsigned, digitsVal, charDigit]
  exact ⟨h1, (C4_fmt_coercion.1 .undef h1).1, h2, h3,
    (C4_fmt_coercion.2 "abc" h2 h3).1⟩

/-- Claim C3 (counterexample): the save-connection click handler performs
its `save_broker_config` mutation but its event trace contains no
`refreshAll()` trigger, contradicting "unconditionally triggers
refreshAll() after the mutation". -/
theorem C3_counterexample :
    Event.call "save_broker_config" ∈
      saveConnClick (.str "paper") (.str "DU111") (.str "127.0.0.1")
        (.num 4002) (.num 1) { ok := .bool true } ∧
    Event.refreshEv ∉
      saveConnClick (.str "paper") (.str "DU111") (.str "127.0.0.1")
        (.num 4002) (.num 1) { ok := .bool true } := by
  constructor <;> simp [saveConnClick]

/-- Claim C3 (corrected): `startEngine`, `stopEngine` and the
save-schedule handler each perform exactly one backend mutation call,
alert the backend's message with a generic fallback when it is falsy, and
end by triggering `refreshAll()`; the save-connection handler performs
exactly one mutation call and alerts `r.message || "Saved"`, but does
NOT trigger `refreshAll()`. -/
theorem C3_dispatch_traces :
    ∀ (r : ApiResult) (m a h p c hr mi : JSVal),
      (startEngine true r = [.call "start_engine",
          .alertEv (jsOr r.message (if jsTruthy r.ok then .str "Engine started"
            else .str "Failed")), .refreshEv] ∧
        countCalls (startEngine true r) = 1) ∧
      (stopEngine true r = [.call "stop_engine",
          .alertEv (jsOr r.message (if jsTruthy r.ok then .str "Engine stopped"
            else .str "Failed")), .refreshEv] ∧
        countCalls (stopEngine true r) = 1) ∧
      (saveSchedClick hr mi r = [.call "set_scheduler_time",
          .alertEv (jsOr r.message (.str "Saved")), .refreshEv] ∧
        countCalls (saveSchedClick hr mi r) = 1) ∧
      (saveConnClick m a h p c r = [.call "save_broker_config",
          .alertEv (jsOr r.message (.str "Saved"))] ∧
        countCalls (saveConnClick m a h p c r) = 1 ∧
        Event.refreshEv ∉ saveConnClick m a h p c r) := by
  intro r m a h p c hr mi
  refine ⟨⟨rfl, rfl⟩, ⟨rfl, rfl⟩, ⟨rfl, rfl⟩, rfl, rfl, ?_⟩
  simp [saveConnClick]

/-- Claim C7 (confirmed): for an absent `points` argument or one with
fewer than 2 elements, `drawEquityCurve` sizes the backing buffer, clears
the surface, draws only the static informational message, and returns —
its trace contains no path/gridline/line/fill operation. -/
theorem C7_short_series_placeholder :
    ∀ (rect : Rect) (dpr : ℚ) (pts : List EquityPoint),
      pts.length < 2 →
      drawEquityCurve true rect dpr (some pts) =
        [.setSize ⌊rect.width * dpr⌋ ⌊rect.height * dpr⌋, .setTransform dpr,
          .clearRect 0 0 rect.width rect.height,
          .fillText noDataMsg 14 32] ∧
      drawEquityCurve true rect dpr none =
        drawEquityCurve true rect dpr (some pts) ∧
      (∀ op ∈ drawEquityCurve true rect dpr (some pts),
        op ≠ .beginPath ∧ op ≠ .stroke ∧ op ≠ .fill ∧
        ∀ x y : JSNum, op ≠ .moveTo x y ∧ op ≠ .lineTo x y) := by
  intro rect dpr pts h
  have hd : drawEquityCurve true rect dpr (some pts) =
      [.setSize ⌊rect.width * dpr⌋ ⌊rect.height * dpr⌋, .setTransform dpr,
        .clearRect 0 0 rect.width rect.height,
        .fillText noDataMsg 14 32] := by
    simp [drawEquityCurve, h]
  refine ⟨hd, by rw [hd]; simp [drawEquityCurve], ?_⟩
  intro op hop
  rw [hd] at hop
  simp only [List.mem_cons, List.not_mem_nil, or_false] at hop
  rcases hop with h1 | h1 | h1 | h1 <;> subst h1 <;>
    exact ⟨by simp, by simp, by simp, fun x y => ⟨by simp, by simp⟩⟩

/-- Witness for `C7_short_series_placeholder`: a concrete single-point
series on a 300×100 surface yields exactly the size/clear/message trace. -/
theorem C7_short_series_placeholder_witness :
    ([⟨JSVal.num 5⟩] : List EquityPoint).length < 2 ∧
    drawEquityCurve true ⟨300, 100⟩ 1 (some [⟨JSVal.num 5⟩]) =
      [.setSize 300 100, .setTransform 1, .clearRect 0 0 300 100,
        .fillText noDataMsg 14 32] := by
  have h : ([⟨JSVal.num 5⟩] : List EquityPoint).length < 2 := by norm_num
  have hd := (C7_short_series_placeholder ⟨300, 100⟩ 1 [⟨JSVal.num 5⟩] h).1
  refine ⟨h, ?_⟩
  rw [hd]
  norm_num

/-- Claim C2 (confirmed): the chart mapping is
`x(i) = pad + (i/(n-1))·innerW` and
`y(v) = pad + (1 - (v-minY)/(maxY-minY))·innerH`; on the series
`[{equity:100},{equity:150},{equity:90}]` over a 300×100 surface with
pad 14, point 0 maps to x = 14, point 2 to x = 286, and point 1 (the
maximum) has the smallest y of the three (14 < 74 and 14 < 86). -/
theorem C2_coordinate_mapping :
    (∀ (pad innerW : ℚ) (n i : ℕ),
      xAt pad innerW n i = pad + ((i : ℚ) / ((n : ℚ) - 1)) * innerW) ∧
    (∀ (pad innerH minY maxY v : ℚ), maxY - minY ≠ 0 →
      yAt pad innerH (some minY) (some maxY) (some v) =
        some (pad + (1 - (v - minY) / (maxY - minY)) * innerH)) ∧
    curvePoints 300 100
        (([⟨.num 100⟩, ⟨.num 150⟩, ⟨.num 90⟩] : List EquityPoint).map
          coerceEquity) =
      [(some 14, some 74), (some 150, some 14), (some 286, some 86)] ∧
    ((14 : ℚ) < 74 ∧ (14 : ℚ) < 86) := by
  refine ⟨fun pad innerW n i => rfl, ?_, ?_, by norm_num⟩
  · intro pad innerH minY maxY v hne
    simp [yAt, jnSub, jnDiv, jnMul, jnAdd, hne]
  · have hm : (([⟨.num 100⟩, ⟨.num 150⟩, ⟨.num 90⟩] : List EquityPoint).map
        coerceEquity) = [some 100, some 150, some 90] := by
      norm_num [coerceEquity, jsOr, jsFalsy, jsToNum]
    rw [hm]
    simp [curvePoints, equityRange, jnListMin, jnListMax, jnMin, jnMax,
      jnSEq, jnAdd, jnSub, jnMul, jnDiv, xAt, yAt, List.enum]
    norm_num

/-- Witness for `C2_coordinate_mapping`: the vertical mapping evaluated
at the concrete range minY = 90, maxY = 150, v = 100 on the 300×100
surface gives y = 74. -/
theorem C2_coordinate_mapping_witness :
    (150 : ℚ) - 90 ≠ 0 ∧
    yAt 14 72 (some 90) (some 150) (some 100) = some 74 := by
  have hne : (150 : ℚ) - 90 ≠ 0 := by norm_num
  have h := C2_coordinate_mapping.2.1 14 72 90 150 100 hne
  refine ⟨hne, ?_⟩
  rw [h]
  norm_num

/-- Claim C9 (confirmed): `renderPositions` derives the side label from
the sign of the coerced quantity — positive → "LONG", negative →
"SHORT", zero → "FLAT" — and the displayed magnitude is `|qty|`, which
is non-negative. -/
theorem C9_position_side_derivation :
    ∀ (p : Position) (q : ℚ), posQty p = some q →
      ((0 < q → (mkPosRow p).side = "LONG") ∧
        (q < 0 → (mkPosRow p).side = "SHORT") ∧
        (q = 0 → (mkPosRow p).side = "FLAT")) ∧
      (mkPosRow p).qtyMag = .jnum (some |q|) ∧ 0 ≤ |q| := by
  intro p q hq
  refine ⟨⟨?_, ?_, ?_⟩, ?_, abs_nonneg q⟩
  · intro h
    simp [mkPosRow, sideOf, hq, jnLt, h]
  · intro h
    have h2 : ¬(0 < q) := not_lt.mpr h.le
    simp [mkPosRow, sideOf, hq, jnLt, h, h2]
  · intro h
    subst h
    simp [mkPosRow, sideOf, hq, jnLt]
  · simp [mkPosRow, hq, jnAbs]

/-- Witness for `C9_position_side_derivation`: quantity 5 renders as a
"LONG" row with magnitude 5. -/
theorem C9_position_side_derivation_witness :
    posQty { quantity := JSVal.num 5 } = some 5 ∧
    (mkPosRow { quantity := JSVal.num 5 }).side = "LONG" ∧
    (mkPosRow { quantity := JSVal.num 5 }).qtyMag = .jnum (some 5) := by
  have hq : posQty { quantity := JSVal.num 5 } = some 5 := by
    simp [posQty, jsCoalesce, jsNullish, jsToNum]
  have h := C9_position_side_derivation { quantity := JSVal.num 5 } 5 hq
  refine ⟨hq, h.1.1 (by norm_num), ?_⟩
  rw [h.2.1]
  norm_num

/-- Helper: `jnMin`-folding a list of copies of `some c` from `some c`
stays at `some c`. -/
theorem foldl_jnMin_const (c : ℚ) :
    ∀ ys : List JSNum, (∀ y ∈ ys, y = some c) →
      ys.foldl jnMin (some c) = some c := by
  intro ys
  induction ys with
  | nil => intro _; rfl
  | cons y ys ih =>
    intro h
    have hy : y = some c := h y (List.mem_cons_self _ _)
    subst hy
    have hm : jnMin (some c) (some c) = some c := by simp [jnMin]
    rw [List.foldl_cons, hm]
    exact ih fun z hz => h z (List.mem_cons_of_mem _ hz)

/-- Helper: `jnMax`-folding a list of copies of `some c` from `some c`
stays at `some c`. -/
theorem foldl_jnMax_const (c : ℚ) :
    ∀ ys : List JSNum, (∀ y ∈ ys, y = some c) →
      ys.foldl jnMax (some c) = some c := by
  intro ys
  induction ys with
  | nil => intro _; rfl
  | cons y ys ih =>
    intro h
    have hy : y = some c := h y (List.mem_cons_self _ _)
    subst hy
    have hm : jnMax (some c) (some c) = some c := by simp [jnMax]
    rw [List.foldl_cons, hm]
    exact ih fun z hz => h z (List.mem_cons_of_mem _ hz)

/-- Helper: `Math.min` of a nonempty all-`c` spread is `c`. -/
theorem jnListMin_const (c : ℚ) (ys : List JSNum) (hne : ys ≠ [])
    (h : ∀ y ∈ ys, y = some c) : jnListMin ys = some c := by
  cases ys with
  | nil => exact absurd rfl hne
  | cons y ys =>
    have hy : y = some c := h y (List.mem_cons_self _ _)
    subst hy
    exact foldl_jnMin_const c ys fun z hz => h z (List.mem_cons_of_mem _ hz)

/-- Helper: `Math.max` of a nonempty all-`c` spread is `c`. -/
theorem jnListMax_const (c : ℚ) (ys : List JSNum) (hne : ys ≠ [])
    (h : ∀ y ∈ ys, y = some c) : jnListMax ys = some c := by
  cases ys with
  | nil => exact absurd rfl hne
  | cons y ys =>
    have hy : y = some c := h y (List.mem_cons_self _ _)
    subst hy
    exact foldl_jnMax_const c ys fun z hz => h z (List.mem_cons_of_mem _ hz)

/-- Helper: a numeric `equity` field contributes exactly its value
(`Number(p.equity || 0)` maps `.num c` to `some c`, also when `c = 0`). -/
theorem coerceEquity_num (c : ℚ) :
    coerceEquity ⟨.num c⟩ = some c := by
  by_cases hc : c = 0
  · subst hc; simp [coerceEquity, jsOr, jsFalsy, jsToNum]
  · simp [coerceEquity, jsOr, jsFalsy, jsToNum, hc]

/-- Helper: the vertical mapping after the degenerate-range guard sends
the common value `c` to the baseline `pad + innerH`. -/
theorem yAt_guarded_const (pad innerH c : ℚ) :
    yAt pad innerH (some c) (some (c + 1)) (some c) =
      some (pad + innerH) := by
  have h1 : c + 1 - c = (1 : ℚ) := by ring
  have h2 : c - c = (0 : ℚ) := by ring
  simp [yAt, jnSub, jnDiv, jnMul, jnAdd, h1, h2]

/-- Claim C1 (counterexample): for the all-equal series
`[{equity:100},{equity:100}]` on a 300×100 surface, both plotted points
have y = 86 = pad + innerHeight (the bottom of the drawing area), which
is not the mid-height value 14 + (100 − 2·14)/2 = 50 the claim states. -/
theorem C1_counterexample :
    curvePoints 300 100
        (([⟨.num 100⟩, ⟨.num 100⟩] : List EquityPoint).map coerceEquity) =
      [(some 14, some 86), (some 286, some 86)] ∧
    (86 : ℚ) ≠ 14 + (100 - 2 * 14) / 2 := by
  constructor
  · have hm : (([⟨.num 100⟩, ⟨.num 100⟩] : List EquityPoint).map
        coerceEquity) = [some 100, some 100] := by
      norm_num [coerceEquity, jsOr, jsFalsy, jsToNum]
    rw [hm]
    simp [curvePoints, equityRange, jnListMin, jnListMax, jnMin, jnMax,
      jnSEq, jnAdd, jnSub, jnMul, jnDiv, xAt, yAt, List.enum]
    norm_num
  · norm_num

/-- Claim C1 (corrected): for every series of at least 2 points with all
equity values equal to `c`, the degenerate-range guard yields the range
`(c, c + 1)`, no plotted coordinate is a division-by-zero result or NaN,
and the line is flat — but at the baseline `pad + innerHeight` (the
bottom edge of the drawing area, `h − 14`), not at mid-height. -/
theorem C1_degenerate_flat_at_baseline :
    ∀ (c w h : ℚ) (pts : List EquityPoint), 2 ≤ pts.length →
      (∀ p ∈ pts, p.equity = .num c) →
      equityRange (pts.map coerceEquity) = (some c, some (c + 1)) ∧
      ∀ q ∈ curvePoints w h (pts.map coerceEquity),
        q.1.isSome ∧ q.2 = some (h - 14) := by
  intro c w h pts hlen hall
  have hys : ∀ y ∈ pts.map coerceEquity, y = some c := by
    intro y hy
    obtain ⟨p, hp, rfl⟩ := List.mem_map.1 hy
    have he := hall p hp
    show jsToNum (jsOr p.equity (.num 0)) = some c
    rw [he]
    exact coerceEquity_num c
  have hne : pts.map coerceEquity ≠ [] := by
    apply List.ne_nil_of_length_pos
    simp only [List.length_map]
    omega
  have hmin := jnListMin_const c (pts.map coerceEquity) hne hys
  have hmax := jnListMax_const c (pts.map coerceEquity) hne hys
  have hrange : equityRange (pts.map coerceEquity) =
      (some c, some (c + 1)) := by
    simp [equityRange, hmin, hmax, jnSEq, jnAdd]
  refine ⟨hrange, ?_⟩
  intro q hq
  simp only [curvePoints, hrange] at hq
  obtain ⟨⟨i, y⟩, hmem, rfl⟩ := List.mem_map.1 hq
  have hy : y = some c :=
    hys y (List.snd_mem_of_mem_enumFrom (x := (i, y)) hmem)
  subst hy
  refine ⟨rfl, ?_⟩
  rw [yAt_guarded_const]
  have : (14 : ℚ) + (h - 14 * 2) = h - 14 := by ring
  rw [this]

/-- Witness for `C1_degenerate_flat_at_baseline`: the two-point constant
series at 100 on a 300×100 surface has range (100, 101) and both points
at y = 86. -/
theorem C1_degenerate_flat_witness :
    (2 ≤ ([⟨.num 100⟩, ⟨.num 100⟩] : List EquityPoint).length) ∧
    equityRange (([⟨.num 100⟩, ⟨.num 100⟩] : List EquityPoint).map
      coerceEquity) = (some 100, some 101) ∧
    ∀ q ∈ curvePoints 300 100
        (([⟨.num 100⟩, ⟨.num 100⟩] : List EquityPoint).map coerceEquity),
      q.1.isSome ∧ q.2 = some 86 := by
  have h2 : 2 ≤ ([⟨.num 100⟩, ⟨.num 100⟩] : List EquityPoint).length := by
    norm_num
  have hall : ∀ p ∈ ([⟨.num 100⟩, ⟨.num 100⟩] : List EquityPoint),
      p.equity = JSVal.num 100 := by
    intro p hp
    fin_cases hp <;> rfl
  have h := C1_degenerate_flat_at_baseline 100 300 100 _ h2 hall
  have h101 : (100 : ℚ) + 1 = 101 := by norm_num
  have h86 : (100 : ℚ) - 14 = 86 := by norm_num
  exact ⟨h2, by rw [h.1, h101], by rw [← h86]; exact h.2⟩

/-- Claim C10 (confirmed): a point whose `equity` field is absent, null,
or any falsy value (including 0) contributes `some 0` via
`Number(p.equity || 0)`, and `drawEquityCurve` depends on the points only
through these coerced values, so such points are indistinguishable from
points with equity exactly 0. -/
theorem C10_falsy_equity_is_zero :
    (∀ v : JSVal, jsFalsy v = true → coerceEquity ⟨v⟩ = some 0) ∧
    (∀ (hc : Bool) (rect : Rect) (dpr : ℚ)
      (pts pts2 : List EquityPoint),
      pts.map coerceEquity = pts2.map coerceEquity →
      drawEquityCurve hc rect dpr (some pts) =
        drawEquityCurve hc rect dpr (some pts2)) := by
  constructor
  · intro v hv
    have h : jsOr v (.num 0) = .num 0 := by simp [jsOr, hv]
    simp [coerceEquity, h, jsToNum]
  · intro hc rect dpr pts pts2 hmap
    have hlen : pts.length = pts2.length := by
      have := congrArg List.length hmap
      simpa using this
    simp only [drawEquityCurve, hlen, hmap]

/-- Witness for `C10_falsy_equity_is_zero`: an absent equity field and an
equity of exactly 0 coerce alike and draw identically. -/
theorem C10_falsy_equity_witness :
    jsFalsy JSVal.undef = true ∧ coerceEquity ⟨JSVal.undef⟩ = some 0 ∧
    ([⟨JSVal.undef⟩, ⟨JSVal.num 0⟩] : List EquityPoint).map coerceEquity =
      ([⟨JSVal.num 0⟩, ⟨JSVal.num 0⟩] : List EquityPoint).map
        coerceEquity ∧
    drawEquityCurve true ⟨300, 100⟩ 1
        (some [⟨JSVal.undef⟩, ⟨JSVal.num 0⟩]) =
      drawEquityCurve true ⟨300, 100⟩ 1
        (some [⟨JSVal.num 0⟩, ⟨JSVal.num 0⟩]) := by
  have hmap : ([⟨JSVal.undef⟩, ⟨JSVal.num 0⟩] : List EquityPoint).map
      coerceEquity =
      ([⟨JSVal.num 0⟩, ⟨JSVal.num 0⟩] : List EquityPoint).map
        coerceEquity := by
    simp [coerceEquity, jsOr, jsFalsy, jsToNum]
  exact ⟨rfl, C10_falsy_equity_is_zero.1 .undef rfl, hmap,
    C10_falsy_equity_is_zero.2 true ⟨300, 100⟩ 1 _ _ hmap⟩

/-- Helper: the `k`-th rendered trade row comes from the `k`-th-from-last
input trade (`slice(-50).reverse()` indexing). -/
theorem tradeRows_getElem (now : ℚ) (l : List Trade) (k : ℕ)
    (hk : k < (sliceLast50 l).length) :
    (tradeRows now l)[k]? =
      (l[l.length - 1 - k]?).map (mkTradeRow now) := by
  rw [tradeRows, List.getElem?_map, List.getElem?_reverse hk]
  simp only [sliceLast50, List.getElem?_drop, List.length_drop]
  have hk2 : k < l.length - (l.length - 50) := by
    simpa [sliceLast50] using hk
  have hidx : l.length - 50 + (l.length - (l.length - 50) - 1 - k) =
      l.length - 1 - k := by omega
  rw [hidx]

/-- Claim C8 (confirmed): a trade list with more than 50 entries renders
exactly 50 rows — the last 50 entries in reversed (newest-first) order,
row `k` coming from input entry `length − 1 − k`; a list of at most 50
entries renders all entries in reversed order. -/
theorem C8_trades_last50_newest_first :
    ∀ (now : ℚ) (l : List Trade),
      (50 < l.length →
        (tradeRows now l).length = 50 ∧
        ∀ k, k < 50 →
          (tradeRows now l)[k]? =
            (l[l.length - 1 - k]?).map (mkTradeRow now)) ∧
      (l.length ≤ 50 →
        tradeRows now l = l.reverse.map (mkTradeRow now) ∧
        ∀ k, k < l.length →
          (tradeRows now l)[k]? =
            (l[l.length - 1 - k]?).map (mkTradeRow now)) ∧
      (0 < l.length →
        renderTrades true now (some l) =
          some (.rows (tradeRows now l))) := by
  intro now l
  refine ⟨?_, ?_, ?_⟩
  · intro h
    constructor
    · simp only [tradeRows, List.length_map, List.length_reverse,
        sliceLast50, List.length_drop]
      omega
    · intro k hk
      apply tradeRows_getElem
      simp only [sliceLast50, List.length_drop]
      omega
  · intro h
    have h0 : l.length - 50 = 0 := by omega
    refine ⟨by simp [tradeRows, sliceLast50, h0], ?_⟩
    intro k hk
    apply tradeRows_getElem
    simp only [sliceLast50, List.length_drop]
    omega
  · intro h
    have hne : ¬l.length = 0 := by omega
    simp [renderTrades, hne]

/-- Witness for `C8_trades_last50_newest_first`: a 60-entry trade list
renders exactly 50 rows. -/
theorem C8_trades_witness :
    50 < (List.replicate 60 ({} : Trade)).length ∧
    (tradeRows 0 (List.replicate 60 ({} : Trade))).length = 50 := by
  have h : 50 < (List.replicate 60 ({} : Trade)).length := by simp
  exact ⟨h, ((C8_trades_last50_newest_first 0 _).1 h).1⟩

/-- Claim C5 (counterexample): a position whose `avg_price` is present
and exactly 0 renders its average-price cell as the em-dash, so the
em-dash is not produced "exactly when the datum is absent and never when
the value is zero". -/
theorem C5_counterexample :
    posAvg { symbol := .str "AAPL", avg_price := .num 0 } = some 0 ∧
    (mkPosRow { symbol := .str "AAPL", avg_price := .num 0 }).avg =
      Cell.dash := by
  have h : posAvg { symbol := .str "AAPL", avg_price := .num 0 } =
      some 0 := by
    simp [posAvg, jsCoalesce, jsNullish, jsToNum]
  exact ⟨h, by simp [mkPosRow, h, jnTruthy]⟩

/-- Claim C5 (corrected): fields read through nullish checks (trade
quantity, current position size) do render 0 as 0, distinct from the
em-dash, which for them appears exactly when the datum is absent; but
fields read through truthiness (position average price, trade price,
current average price, equity-change %) render the em-dash both when the
datum is absent and when its value is exactly 0, conflating "no data"
with "value is zero" for those fields. -/
theorem C5_zero_conflated_with_absent :
    (∀ p : Position, posAvg p = some 0 →
      (mkPosRow p).avg = Cell.dash) ∧
    (∀ (now : ℚ) (t : Trade), t.price = .num 0 →
      (mkTradeRow now t).price = Cell.dash) ∧
    (∀ (now : ℚ) (t : Trade), t.quantity = .num 0 →
      (mkTradeRow now t).qty = .jsval (.num 0) ∧
      Cell.isDash ((mkTradeRow now t).qty) = false) ∧
    (∀ (now : ℚ) (t : Trade), jsNullish t.quantity = true →
      jsNullish t.qty = true →
      (mkTradeRow now t).qty = .jsval (.str "—")) ∧
    (posSizeCell (.num 0) = .strOf (.num 0) ∧
      Cell.isDash (posSizeCell (.num 0)) = false ∧
      posSizeCell .undef = Cell.dash) ∧
    (posAvgCell (.num 0) = Cell.dash ∧ posAvgCell .undef = Cell.dash) ∧
    (pctCell (.num 0) = Cell.dash ∧ pctCell .undef = Cell.dash) ∧
    (∀ v : JSVal, jsNullish v = false → posSizeCell v = .strOf v) := by
  refine ⟨?_, ?_, ?_, ?_, ⟨rfl, rfl, rfl⟩, ?_, ?_, ?_⟩
  · intro p h
    simp [mkPosRow, h, jnTruthy]
  · intro now t h
    simp [mkTradeRow, h, jsTruthy, jsFalsy]
  · intro now t h
    constructor
    · simp [mkTradeRow, h, jsCoalesce, jsNullish]
    · simp [mkTradeRow, h, jsCoalesce, jsNullish, Cell.isDash]
  · intro now t h1 h2
    simp [mkTradeRow, jsCoalesce, h1, h2]
  · constructor
    · simp [posAvgCell, jsTruthy, jsFalsy]
    · rfl
  · constructor
    · simp [pctCell, jsCoalesce, jsNullish, jsToNum]
    · rfl
  · intro v h
    simp [posSizeCell, h]

/-- Witness for `C5_zero_conflated_with_absent`: a zero average price and
a zero trade price concretely render as the em-dash, and a zero trade
quantity renders as 0. -/
theorem C5_zero_conflated_witness :
    posAvg { avg_price := JSVal.num 0 } = some 0 ∧
    (mkPosRow { avg_price := JSVal.num 0 }).avg = Cell.dash ∧
    ({ price := JSVal.num 0 } : Trade).price = .num 0 ∧
    (mkTradeRow 0 { price := JSVal.num 0 }).price = Cell.dash ∧
    ({ quantity := JSVal.num 0 } : Trade).quantity = .num 0 ∧
    (mkTradeRow 0 { quantity := JSVal.num 0 }).qty = .jsval (.num 0) := by
  have h : posAvg { avg_price := JSVal.num 0 } = some 0 := by
    simp [posAvg, jsCoalesce, jsNullish, jsToNum]
  exact ⟨h, C5_zero_conflated_with_absent.1 _ h, rfl,
    C5_zero_conflated_with_absent.2.1 0 _ rfl, rfl,
    (C5_zero_conflated_with_absent.2.2.1 0 _ rfl).1⟩

end Kaqt
